import Mathlib

/-
Shallow embedding of the MKM simulation scripts over exact rationals.

Sources embedded:
  * src/laboratory_work1/2DSpace.py   (simulate_trajectory)      -> namespace Proj2D
  * src/laboratory_work1/3DSpace.py   (simulate_trajectory_3d)   -> namespace Proj3D
  * src/laboratory_work2/LorentzAttractorWithoutScipy.py and
    src/laboratory_work2/LorentzAttractorApp.py (lorenz, integrate_lorenz)
                                                                 -> namespace Lorenz
    (the two files contain textually identical definitions of `lorenz` and
    `integrate_lorenz`; they are embedded once.)

Modelling conventions:
  * Python floats are modelled as rationals.  The two irrational real-number
    operations the scripts use, `np.pi` and `np.sqrt`, are passed in as
    explicit parameters `pi : Rat` and `sqrt : Rat -> Rat`; every universal
    theorem below quantifies over them, and the few facts that need anything
    about `sqrt` assume only `sqrt 0 = 0` (which holds for the real square
    root).  None of the verified claims depends on the numeric value of
    either operation.
  * `np.deg2rad`/`np.cos`/`np.sin` enter the scripts only through the initial
    velocity components (`vx = v0*cos(..)`, ...); the embedding therefore
    takes the initial velocity components themselves as inputs.
  * The unbounded `while` loops are embedded with an explicit fuel argument;
    all recorded-series theorems hold for every fuel value, and the concrete
    runs used as counterexamples terminate by ground impact well inside the
    supplied fuel (shown explicitly where it matters).
  * `np.arange(0, stop, step)` (positive step) has `max 0 (ceil (stop/step))`
    elements; this exact-arithmetic count is embedded in `Lorenz.numSteps`.
-/

namespace Proj2D

/-- g = 9.81 from 2DSpace.py. -/
def g : ℚ := 981 / 100

/-- rho = 1.29 (air density) from 2DSpace.py. -/
def rho : ℚ := 129 / 100

/-- The scalar parameters of `simulate_trajectory` other than the initial
velocity: wind vector, mass, radius, drag coefficient Cd, spin omega, and the
time step dt. -/
structure Params2D where
  windx : ℚ
  windy : ℚ
  mass : ℚ
  radius : ℚ
  Cd : ℚ
  omega : ℚ
  dt : ℚ
deriving DecidableEq

/-- The loop state of `simulate_trajectory`: position, velocity and time. -/
structure State2D where
  x : ℚ
  y : ℚ
  vx : ℚ
  vy : ℚ
  t : ℚ
deriving DecidableEq

/-- v_rel = sqrt((vx - wind_x)^2 + (vy - wind_y)^2), the recorded
wind-relative speed. -/
def vrel2D (sqrt : ℚ → ℚ) (p : Params2D) (vx vy : ℚ) : ℚ :=
  sqrt ((vx - p.windx) ^ 2 + (vy - p.windy) ^ 2)

/-- The drag-force block of the loop body of `simulate_trajectory`
(2DSpace.py lines 61-66): if v_rel != 0 the quadratic drag decomposed along
the relative velocity, else the zero vector. -/
def drag2D (pi : ℚ) (sqrt : ℚ → ℚ) (p : Params2D) (vx vy : ℚ) : ℚ × ℚ :=
  let A := pi * p.radius ^ 2
  let vxRel := vx - p.windx
  let vyRel := vy - p.windy
  let vRel := sqrt (vxRel ^ 2 + vyRel ^ 2)
  if vRel ≠ 0 then
    let Fd := 1 / 2 * rho * p.Cd * A * vRel ^ 2
    (-Fd * (vxRel / vRel), -Fd * (vyRel / vRel))
  else (0, 0)

/-- The Magnus-force block of the loop body of `simulate_trajectory`
(2DSpace.py lines 69-73). -/
def magnus2D (pi : ℚ) (sqrt : ℚ → ℚ) (p : Params2D) (vx vy : ℚ) : ℚ × ℚ :=
  let A := pi * p.radius ^ 2
  let vxRel := vx - p.windx
  let vyRel := vy - p.windy
  let vRel := sqrt (vxRel ^ 2 + vyRel ^ 2)
  if vRel ≠ 0 then
    (1 / 2 * rho * A * p.radius * p.omega * vyRel,
      -(1 / 2) * rho * A * p.radius * p.omega * vxRel)
  else (0, 0)

/-- ax = (Fdx + F_Mx)/mass, ay = -g + (Fdy + F_My)/mass (2DSpace.py
lines 76-77). -/
def accel2D (pi : ℚ) (sqrt : ℚ → ℚ) (p : Params2D) (vx vy : ℚ) : ℚ × ℚ :=
  let fd := drag2D pi sqrt p vx vy
  let fm := magnus2D pi sqrt p vx vy
  ((fd.1 + fm.1) / p.mass, -g + (fd.2 + fm.2) / p.mass)

/-- One iteration of the update part of the loop body (2DSpace.py lines
80-84): velocities first (vx += ax*dt; vy += ay*dt), then positions from the
already-updated velocities (x += vx*dt; y += vy*dt), then t += dt. -/
def step2D (pi : ℚ) (sqrt : ℚ → ℚ) (p : Params2D) (s : State2D) : State2D :=
  let a := accel2D pi sqrt p s.vx s.vy
  let vx2 := s.vx + a.1 * p.dt
  let vy2 := s.vy + a.2 * p.dt
  { x := s.x + vx2 * p.dt
    y := s.y + vy2 * p.dt
    vx := vx2
    vy := vy2
    t := s.t + p.dt }

/-- The six arrays returned by `simulate_trajectory`. -/
structure Series2D where
  T : List ℚ
  X : List ℚ
  Y : List ℚ
  VX : List ℚ
  VY : List ℚ
  VREL : List ℚ
deriving DecidableEq

/-- The empty series (all six arrays empty). -/
def emptySeries2D : Series2D := ⟨[], [], [], [], [], []⟩

/-- The while-loop of `simulate_trajectory` (2DSpace.py lines 47-84):
`while y >= 0:` record the current sample (including v_rel), then perform one
step.  `fuel` bounds the number of iterations; the loop body is otherwise a
line-by-line translation. -/
def run2D (pi : ℚ) (sqrt : ℚ → ℚ) (p : Params2D) : ℕ → State2D → Series2D
  | 0, _ => emptySeries2D
  | fuel + 1, s =>
    if 0 ≤ s.y then
      let rest := run2D pi sqrt p fuel (step2D pi sqrt p s)
      ⟨s.t :: rest.T, s.x :: rest.X, s.y :: rest.Y, s.vx :: rest.VX,
        s.vy :: rest.VY, vrel2D sqrt p s.vx s.vy :: rest.VREL⟩
    else emptySeries2D

/-- Function `simulate_trajectory` of 2DSpace.py, with the initial velocity components
(vx0, vy0) = (v0*cos(angle), v0*sin(angle)) taken directly as inputs.  The
initial state is x = y = 0, t = 0. -/
def simulate_trajectory (pi : ℚ) (sqrt : ℚ → ℚ) (vx0 vy0 : ℚ) (p : Params2D)
    (fuel : ℕ) : Series2D :=
  run2D pi sqrt p fuel { x := 0, y := 0, vx := vx0, vy := vy0, t := 0 }

end Proj2D

namespace Proj3D

/-- g = 9.81 from 3DSpace.py. -/
def g : ℚ := 981 / 100

/-- rho = 1.29 from 3DSpace.py. -/
def rho : ℚ := 129 / 100

/-- The scalar parameters of `simulate_trajectory_3d` other than the initial
velocity (the 3D variant has no Magnus/spin term). -/
structure Params3D where
  windx : ℚ
  windy : ℚ
  windz : ℚ
  mass : ℚ
  radius : ℚ
  Cd : ℚ
  dt : ℚ
deriving DecidableEq

/-- The loop state of `simulate_trajectory_3d`. -/
structure State3D where
  x : ℚ
  y : ℚ
  z : ℚ
  vx : ℚ
  vy : ℚ
  vz : ℚ
  t : ℚ
deriving DecidableEq

/-- v_rel = sqrt((vx-wind_x)^2 + (vy-wind_y)^2 + (vz-wind_z)^2). -/
def vrel3D (sqrt : ℚ → ℚ) (q : Params3D) (vx vy vz : ℚ) : ℚ :=
  sqrt ((vx - q.windx) ^ 2 + (vy - q.windy) ^ 2 + (vz - q.windz) ^ 2)

/-- The drag-force block of `simulate_trajectory_3d` (3DSpace.py lines
100-106). -/
def drag3D (pi : ℚ) (sqrt : ℚ → ℚ) (q : Params3D) (vx vy vz : ℚ) :
    ℚ × ℚ × ℚ :=
  let A := pi * q.radius ^ 2
  let vxRel := vx - q.windx
  let vyRel := vy - q.windy
  let vzRel := vz - q.windz
  let vRel := sqrt (vxRel ^ 2 + vyRel ^ 2 + vzRel ^ 2)
  if vRel ≠ 0 then
    let Fd := 1 / 2 * rho * q.Cd * A * vRel ^ 2
    (-Fd * (vxRel / vRel), -Fd * (vyRel / vRel), -Fd * (vzRel / vRel))
  else (0, 0, 0)

/-- ax = Fdx/mass, ay = Fdy/mass, az = -g + Fdz/mass (3DSpace.py lines
112-114). -/
def accel3D (pi : ℚ) (sqrt : ℚ → ℚ) (q : Params3D) (vx vy vz : ℚ) :
    ℚ × ℚ × ℚ :=
  let fd := drag3D pi sqrt q vx vy vz
  (fd.1 / q.mass, fd.2.1 / q.mass, -g + fd.2.2 / q.mass)

/-- One iteration of the update part of the loop body (3DSpace.py lines
116-126): all three velocity components first, then the positions from the
already-updated velocities, then t += dt. -/
def step3D (pi : ℚ) (sqrt : ℚ → ℚ) (q : Params3D) (s : State3D) : State3D :=
  let a := accel3D pi sqrt q s.vx s.vy s.vz
  let vx2 := s.vx + a.1 * q.dt
  let vy2 := s.vy + a.2.1 * q.dt
  let vz2 := s.vz + a.2.2 * q.dt
  { x := s.x + vx2 * q.dt
    y := s.y + vy2 * q.dt
    z := s.z + vz2 * q.dt
    vx := vx2
    vy := vy2
    vz := vz2
    t := s.t + q.dt }

/-- The eight arrays returned by `simulate_trajectory_3d`. -/
structure Series3D where
  T : List ℚ
  X : List ℚ
  Y : List ℚ
  Z : List ℚ
  VX : List ℚ
  VY : List ℚ
  VZ : List ℚ
  VREL : List ℚ
deriving DecidableEq

/-- The empty 3D series. -/
def emptySeries3D : Series3D := ⟨[], [], [], [], [], [], [], []⟩

/-- The while-loop of `simulate_trajectory_3d` (3DSpace.py lines 77-126):
`while z >= 0:` record the current sample, then step. -/
def run3D (pi : ℚ) (sqrt : ℚ → ℚ) (q : Params3D) : ℕ → State3D → Series3D
  | 0, _ => emptySeries3D
  | fuel + 1, s =>
    if 0 ≤ s.z then
      let rest := run3D pi sqrt q fuel (step3D pi sqrt q s)
      ⟨s.t :: rest.T, s.x :: rest.X, s.y :: rest.Y, s.z :: rest.Z,
        s.vx :: rest.VX, s.vy :: rest.VY, s.vz :: rest.VZ,
        vrel3D sqrt q s.vx s.vy s.vz :: rest.VREL⟩
    else emptySeries3D

/-- Function `simulate_trajectory_3d` of 3DSpace.py, with the initial velocity
components taken directly as inputs; initial position is the origin, t = 0. -/
def simulate_trajectory_3d (pi : ℚ) (sqrt : ℚ → ℚ) (vx0 vy0 vz0 : ℚ)
    (q : Params3D) (fuel : ℕ) : Series3D :=
  run3D pi sqrt q fuel
    { x := 0, y := 0, z := 0, vx := vx0, vy := vy0, vz := vz0, t := 0 }

end Proj3D

namespace Lorenz

/-- A state vector (x, y, z) of the Lorenz system. -/
structure V3 where
  x : ℚ
  y : ℚ
  z : ℚ
deriving DecidableEq

instance : Add V3 := ⟨fun a b => ⟨a.x + b.x, a.y + b.y, a.z + b.z⟩⟩

instance : SMul ℚ V3 := ⟨fun c a => ⟨c * a.x, c * a.y, c * a.z⟩⟩

/-- Function `lorenz(t, state, sigma, rho, beta)` from both Lorenz scripts:
(sigma*(y-x), x*(rho-z)-y, x*y-beta*z).  The time argument is accepted and
unused, exactly as in the source. -/
def lorenz (t : ℚ) (s : V3) (sigma rho beta : ℚ) : V3 :=
  ⟨sigma * (s.y - s.x), s.x * (rho - s.z) - s.y, s.x * s.y - beta * s.z⟩

/-- The loop body of `integrate_lorenz` (LorentzAttractorWithoutScipy.py
lines 25-32): the classic RK4 update with current time `tcur`. -/
def lorenzStep (sigma rho beta dt tcur : ℚ) (s : V3) : V3 :=
  let k1 := lorenz tcur s sigma rho beta
  let k2 := lorenz (tcur + dt / 2) (s + (dt / 2) • k1) sigma rho beta
  let k3 := lorenz (tcur + dt / 2) (s + (dt / 2) • k2) sigma rho beta
  let k4 := lorenz (tcur + dt) (s + dt • k3) sigma rho beta
  s + (dt / 6) • (k1 + (2 : ℚ) • k2 + (2 : ℚ) • k3 + k4)

/-- sol[:, i] of `integrate_lorenz`: the i-th RK4 iterate, stepping from
sol[:, i] at time t[i] = i*dt to sol[:, i+1]. -/
def solAt (sigma rho beta dt : ℚ) (init : V3) : ℕ → V3
  | 0 => init
  | i + 1 => lorenzStep sigma rho beta dt ((i : ℚ) * dt) (solAt sigma rho beta dt init i)

/-- num_steps = len(np.arange(0, t_max + dt, dt)): in exact arithmetic the
length of `np.arange(0, stop, step)` with positive step is
max 0 (ceil (stop/step)). -/
def numSteps (t_max dt : ℚ) : ℕ := (⌈(t_max + dt) / dt⌉).toNat

/-- Function `integrate_lorenz` of the Lorenz scripts: the time grid t[i] = i*dt and
the RK4 solution samples, both of length num_steps. -/
def integrate_lorenz (sigma rho beta : ℚ) (init : V3) (t_max dt : ℚ) :
    List ℚ × List V3 :=
  (List.map (fun (i : ℕ) => (i : ℚ) * dt) (List.range (numSteps t_max dt)),
    (List.range (numSteps t_max dt)).map (solAt sigma rho beta dt init))

end Lorenz

/-- A concrete stand-in for `np.sqrt` used in closed witness runs: it
satisfies `csqrt 0 = 0` and sends every nonzero rational to 1.  The claims
verified on concrete inputs below do not depend on the values of the square
root at nonzero arguments. -/
def csqrt : ℚ → ℚ := fun q => if q = 0 then 0 else 1

/-- Every sample recorded by the 2D loop passes the `y >= 0` guard: samples
are appended only inside the `while y >= 0` body, before stepping. -/
theorem Proj2D.run2D_y_all_nonneg (pi : ℚ) (sqrt : ℚ → ℚ) (p : Proj2D.Params2D) :
    ∀ (fuel : ℕ) (s : Proj2D.State2D),
      (((Proj2D.run2D pi sqrt p fuel s).Y).all fun q => decide (0 ≤ q)) = true := by
  intro fuel
  induction fuel with
  | zero => intro s; rfl
  | succ n ih =>
    intro s
    by_cases h : 0 ≤ s.y
    · simp only [Proj2D.run2D, if_pos h, List.all_cons, ih, Bool.and_true,
        decide_eq_true_eq]
      exact h
    · simp only [Proj2D.run2D, if_neg h]
      rfl

/-- Every sample recorded by the 3D loop passes the `z >= 0` guard. -/
theorem Proj3D.run3D_z_all_nonneg (pi : ℚ) (sqrt : ℚ → ℚ) (q : Proj3D.Params3D) :
    ∀ (fuel : ℕ) (s : Proj3D.State3D),
      (((Proj3D.run3D pi sqrt q fuel s).Z).all fun c => decide (0 ≤ c)) = true := by
  intro fuel
  induction fuel with
  | zero => intro s; rfl
  | succ n ih =>
    intro s
    by_cases h : 0 ≤ s.z
    · simp only [Proj3D.run3D, if_pos h, List.all_cons, ih, Bool.and_true,
        decide_eq_true_eq]
      exact h
    · simp only [Proj3D.run3D, if_neg h]
      rfl

/-- C1 (counterexample): the claim states that the last recorded sample of a
ground-impact run has vertical coordinate < 0.  In the run below (zero initial
velocity, unit mass, no wind/drag/spin, dt = 1) the loop records exactly one
sample with y = 0, the very next state is below ground (so the run genuinely
ends by ground impact, not by fuel exhaustion), and that below-ground state is
never recorded: the last recorded vertical coordinate is 0, and 0 < 0 is
false. -/
theorem ground_impact_last_sample_cex :
    (Proj2D.simulate_trajectory 3 csqrt 0 0 ⟨0, 0, 1, 0, 0, 0, 1⟩ 5).Y.getLast?
        = some 0 ∧
      ¬ ((0 : ℚ) < 0) ∧
      (Proj2D.step2D 3 csqrt ⟨0, 0, 1, 0, 0, 0, 1⟩ ⟨0, 0, 0, 0, 0⟩).y < 0 :=
  ⟨by norm_num [Proj2D.simulate_trajectory, Proj2D.run2D, Proj2D.step2D,
      Proj2D.accel2D, Proj2D.drag2D, Proj2D.magnus2D, Proj2D.vrel2D,
      Proj2D.emptySeries2D, Proj2D.g, Proj2D.rho, csqrt],
    by norm_num,
    by norm_num [Proj2D.step2D, Proj2D.accel2D, Proj2D.drag2D,
      Proj2D.magnus2D, Proj2D.g, Proj2D.rho, csqrt]⟩

/-- C1 (amended): in every 2D and 3D projectile run, every recorded sample
has nonnegative vertical/altitude coordinate; the guard `y >= 0` (resp.
`z >= 0`) is evaluated before recording, so the first below-ground state
terminates the loop without being recorded, and the recorded series contains
no below-ground sample at all. -/
theorem ground_guard_all_nonneg :
    (∀ (pi : ℚ) (sqrt : ℚ → ℚ) (vx0 vy0 : ℚ) (p : Proj2D.Params2D) (fuel : ℕ),
        (((Proj2D.simulate_trajectory pi sqrt vx0 vy0 p fuel).Y).all
            fun q => decide (0 ≤ q)) = true) ∧
    (∀ (pi : ℚ) (sqrt : ℚ → ℚ) (vx0 vy0 vz0 : ℚ) (q : Proj3D.Params3D) (fuel : ℕ),
        (((Proj3D.simulate_trajectory_3d pi sqrt vx0 vy0 vz0 q fuel).Z).all
            fun c => decide (0 ≤ c)) = true) :=
  ⟨fun pi sqrt vx0 vy0 p fuel => Proj2D.run2D_y_all_nonneg pi sqrt p fuel _,
    fun pi sqrt vx0 vy0 vz0 q fuel => Proj3D.run3D_z_all_nonneg pi sqrt q fuel _⟩

/-- C2: both steppers update every velocity component to
velocity + acceleration*dt and then every position component to
position + (updated velocity)*dt — the position update reads the
already-updated velocity (semi-implicit Euler), never the old one. -/
theorem step_semi_implicit :
    (∀ (pi : ℚ) (sqrt : ℚ → ℚ) (p : Proj2D.Params2D) (s : Proj2D.State2D),
        (Proj2D.step2D pi sqrt p s).vx
            = s.vx + (Proj2D.accel2D pi sqrt p s.vx s.vy).1 * p.dt ∧
        (Proj2D.step2D pi sqrt p s).vy
            = s.vy + (Proj2D.accel2D pi sqrt p s.vx s.vy).2 * p.dt ∧
        (Proj2D.step2D pi sqrt p s).x
            = s.x + (Proj2D.step2D pi sqrt p s).vx * p.dt ∧
        (Proj2D.step2D pi sqrt p s).y
            = s.y + (Proj2D.step2D pi sqrt p s).vy * p.dt) ∧
    (∀ (pi : ℚ) (sqrt : ℚ → ℚ) (q : Proj3D.Params3D) (s : Proj3D.State3D),
        (Proj3D.step3D pi sqrt q s).vx
            = s.vx + (Proj3D.accel3D pi sqrt q s.vx s.vy s.vz).1 * q.dt ∧
        (Proj3D.step3D pi sqrt q s).vy
            = s.vy + (Proj3D.accel3D pi sqrt q s.vx s.vy s.vz).2.1 * q.dt ∧
        (Proj3D.step3D pi sqrt q s).vz
            = s.vz + (Proj3D.accel3D pi sqrt q s.vx s.vy s.vz).2.2 * q.dt ∧
        (Proj3D.step3D pi sqrt q s).x
            = s.x + (Proj3D.step3D pi sqrt q s).vx * q.dt ∧
        (Proj3D.step3D pi sqrt q s).y
            = s.y + (Proj3D.step3D pi sqrt q s).vy * q.dt ∧
        (Proj3D.step3D pi sqrt q s).z
            = s.z + (Proj3D.step3D pi sqrt q s).vz * q.dt) :=
  ⟨fun pi sqrt p s => ⟨rfl, rfl, rfl, rfl⟩,
    fun pi sqrt q s => ⟨rfl, rfl, rfl, rfl, rfl, rfl⟩⟩

/-- Componentwise description of V3 addition (the instance used by the RK4
step). -/
theorem Lorenz.V3.add_def (a b : Lorenz.V3) :
    a + b = ⟨a.x + b.x, a.y + b.y, a.z + b.z⟩ := rfl

/-- Componentwise description of the scalar action of a rational on V3. -/
theorem Lorenz.V3.smul_def (c : ℚ) (a : Lorenz.V3) :
    c • a = ⟨c * a.x, c * a.y, c * a.z⟩ := rfl

/-- C3 (code evidence): `simulate_trajectory` performs no parameter
validation.  Called with mass = 0 (an invalid parameter per the spec) it does
not raise any typed error: the loop guard passes, the initial sample is
recorded, and a (partial) trajectory series is returned to the caller.  The
single-iteration run below exercises exactly the recording that happens before
any force is divided by the zero mass. -/
theorem no_parameter_validation_mass_zero :
    Proj2D.simulate_trajectory 3 csqrt 1 0 ⟨0, 0, 0, 1 / 10, 1 / 2, 0, 1 / 1000⟩ 1
      = ⟨[0], [0], [0], [1], [0], [1]⟩ := by
  norm_num [Proj2D.simulate_trajectory, Proj2D.run2D, Proj2D.vrel2D,
    Proj2D.emptySeries2D, csqrt]

/-- C4: consecutive samples of the embedded `integrate_lorenz` iteration are
related by the classic RK4 update: with s the i-th sample and t = i*dt,
sol[i+1] = s + dt/6*(k1 + 2*k2 + 2*k3 + k4) with k1 = f(t,s),
k2 = f(t+dt/2, s+dt/2*k1), k3 = f(t+dt/2, s+dt/2*k2), k4 = f(t+dt, s+dt*k3)
for the Lorenz field f. -/
theorem rk4_step_formula :
    ∀ (sigma rho beta dt : ℚ) (init : Lorenz.V3) (i : ℕ)
      (s k1 k2 k3 k4 : Lorenz.V3),
      s = Lorenz.solAt sigma rho beta dt init i →
      k1 = Lorenz.lorenz ((i : ℚ) * dt) s sigma rho beta →
      k2 = Lorenz.lorenz ((i : ℚ) * dt + dt / 2) (s + (dt / 2) • k1) sigma rho beta →
      k3 = Lorenz.lorenz ((i : ℚ) * dt + dt / 2) (s + (dt / 2) • k2) sigma rho beta →
      k4 = Lorenz.lorenz ((i : ℚ) * dt + dt) (s + dt • k3) sigma rho beta →
      Lorenz.solAt sigma rho beta dt init (i + 1)
        = s + (dt / 6) • (k1 + (2 : ℚ) • k2 + (2 : ℚ) • k3 + k4) := by
  intro sigma rho beta dt init i s k1 k2 k3 k4 hs h1 h2 h3 h4
  subst hs
  subst h1
  subst h2
  subst h3
  subst h4
  rfl

/-- C4 witness: the RK4 step relation instantiated at sigma = rho = beta = 1,
dt = 0, init = (1,1,1), i = 0, where every slope evaluates to (0,-1,0). -/
theorem rk4_step_formula_witness :
    Lorenz.solAt 1 1 1 0 ⟨1, 1, 1⟩ 1
      = (⟨1, 1, 1⟩ : Lorenz.V3)
          + ((0 : ℚ) / 6) • ((⟨0, -1, 0⟩ : Lorenz.V3) + (2 : ℚ) • (⟨0, -1, 0⟩ : Lorenz.V3)
              + (2 : ℚ) • (⟨0, -1, 0⟩ : Lorenz.V3) + (⟨0, -1, 0⟩ : Lorenz.V3)) :=
  rk4_step_formula 1 1 1 0 ⟨1, 1, 1⟩ 0 ⟨1, 1, 1⟩ ⟨0, -1, 0⟩ ⟨0, -1, 0⟩ ⟨0, -1, 0⟩
    ⟨0, -1, 0⟩
    (by norm_num [Lorenz.solAt])
    (by norm_num [Lorenz.lorenz, Lorenz.V3.mk.injEq])
    (by norm_num [Lorenz.lorenz, Lorenz.V3.add_def, Lorenz.V3.smul_def,
      Lorenz.V3.mk.injEq])
    (by norm_num [Lorenz.lorenz, Lorenz.V3.add_def, Lorenz.V3.smul_def,
      Lorenz.V3.mk.injEq])
    (by norm_num [Lorenz.lorenz, Lorenz.V3.add_def, Lorenz.V3.smul_def,
      Lorenz.V3.mk.injEq])

/-- C5: the embedded Lorenz vector field returns exactly
(sigma*(y-x), x*(rho-z)-y, x*y-beta*z), and its value does not depend on the
time argument. -/
theorem lorenz_field_formula :
    (∀ (t x y z sigma rho beta : ℚ),
        Lorenz.lorenz t ⟨x, y, z⟩ sigma rho beta
          = ⟨sigma * (y - x), x * (rho - z) - y, x * y - beta * z⟩) ∧
    (∀ (t1 t2 : ℚ) (s : Lorenz.V3) (sigma rho beta : ℚ),
        Lorenz.lorenz t1 s sigma rho beta = Lorenz.lorenz t2 s sigma rho beta) :=
  ⟨fun _ _ _ _ _ _ _ => rfl, fun _ _ _ _ _ _ => rfl⟩

/-- C6 (counterexample): with t_max = 1 and dt = 2/5 the embedded
`integrate_lorenz` records len(np.arange(0, 1 + 2/5, 2/5)) =
ceil((1 + 2/5)/(2/5)) = ceil(7/2) = 4 samples, while the claimed count
floor(t_max/dt) + 1 = floor(5/2) + 1 = 3 differs. -/
theorem lorenz_sample_count_cex :
    (Lorenz.integrate_lorenz 10 28 (8 / 3) ⟨1, 1, 1⟩ 1 (2 / 5)).2.length = 4 ∧
      (⌊(1 : ℚ) / (2 / 5)⌋).toNat + 1 = 3 ∧ (4 : ℕ) ≠ 3 := by
  refine ⟨?_, ?_, by norm_num⟩
  · have h : ⌈((1 : ℚ) + 2 / 5) / (2 / 5)⌉ = 4 := by
      rw [Int.ceil_eq_iff] <;> norm_num
    simp [Lorenz.integrate_lorenz, Lorenz.numSteps, h]
  · have h : ⌊(1 : ℚ) / (2 / 5)⌋ = 2 := by
      rw [Int.floor_eq_iff] <;> norm_num
    rw [h]
    rfl

/-- C6 (amended): for t_max > 0 and dt > 0 the number of recorded Lorenz
samples equals ceil(t_max/dt) + 1 (the exact-arithmetic length of
np.arange(0, t_max + dt, dt)); this coincides with the claimed
floor(t_max/dt) + 1 exactly when t_max/dt is an integer and exceeds it by one
otherwise. -/
theorem lorenz_sample_count :
    ∀ (sigma rho beta : ℚ) (init : Lorenz.V3) (t_max dt : ℚ),
      0 < t_max → 0 < dt →
      (Lorenz.integrate_lorenz sigma rho beta init t_max dt).2.length
        = (⌈t_max / dt⌉).toNat + 1 := by
  intro sigma rho beta init t_max dt h1 h2
  have hdt : dt ≠ 0 := ne_of_gt h2
  have hdiv : (t_max + dt) / dt = t_max / dt + 1 := by
    rw [add_div, div_self hdt]
  have hceil : ⌈(t_max + dt) / dt⌉ = ⌈t_max / dt⌉ + 1 := by
    rw [hdiv, Int.ceil_add_one]
  have hpos : 0 ≤ ⌈t_max / dt⌉ := Int.ceil_nonneg (le_of_lt (div_pos h1 h2))
  simp only [Lorenz.integrate_lorenz, List.length_map, List.length_range,
    Lorenz.numSteps, hceil]
  omega

/-- C6 witness: the amended count at t_max = 1, dt = 1/2 (both positive):
3 recorded samples = ceil(2) + 1. -/
theorem lorenz_sample_count_witness :
    (0 : ℚ) < 1 ∧ (0 : ℚ) < 1 / 2 ∧
      (Lorenz.integrate_lorenz 10 28 (8 / 3) ⟨1, 1, 1⟩ 1 (1 / 2)).2.length
        = (⌈(1 : ℚ) / (1 / 2)⌉).toNat + 1 :=
  ⟨by norm_num, by norm_num,
    lorenz_sample_count 10 28 (8 / 3) ⟨1, 1, 1⟩ 1 (1 / 2) (by norm_num)
      (by norm_num)⟩

/-- C7 (code evidence): the number of samples returned by the embedded
`integrate_lorenz` is a function of t_max and dt alone — it does not depend
on the parameters, the initial state, or any value the state takes during the
run.  Hence no per-step finiteness check exists and no mid-run abort is
possible: the runner always returns the full fixed-length series, and its
return value carries no divergence report (no last-finite-sample/step-index
output exists in its type). -/
theorem lorenz_run_length_fixed :
    ∀ (sigma rho beta : ℚ) (init : Lorenz.V3) (t_max dt : ℚ),
      (Lorenz.integrate_lorenz sigma rho beta init t_max dt).2.length
          = Lorenz.numSteps t_max dt ∧
      (Lorenz.integrate_lorenz sigma rho beta init t_max dt).1.length
          = Lorenz.numSteps t_max dt := by
  intro sigma rho beta init t_max dt
  constructor
  · simp only [Lorenz.integrate_lorenz, List.length_map, List.length_range]
  · simp only [Lorenz.integrate_lorenz, List.length_map, List.length_range]

/-- With Cd = 0 and omega = 0 the 2D acceleration is exactly (0, -g),
whatever the wind, mass, radius, time step, sqrt model and velocity: both the
drag and the Magnus expressions vanish in either branch of the guard. -/
theorem Proj2D.accel2D_dragFree (pi : ℚ) (sqrt : ℚ → ℚ)
    (wx wy m r dtv vx vy : ℚ) :
    Proj2D.accel2D pi sqrt ⟨wx, wy, m, r, 0, 0, dtv⟩ vx vy = (0, -Proj2D.g) := by
  simp only [Proj2D.accel2D, Proj2D.drag2D, Proj2D.magnus2D]
  split_ifs <;> norm_num

/-- With Cd = 0 and omega = 0 the 2D stepper does not depend on the wind,
the mass or the radius (only on dt). -/
theorem Proj2D.step2D_dragFree_eq (pi : ℚ) (sqrt : ℚ → ℚ)
    (wx1 wy1 m1 r1 wx2 wy2 m2 r2 dtv : ℚ) (s : Proj2D.State2D) :
    Proj2D.step2D pi sqrt ⟨wx1, wy1, m1, r1, 0, 0, dtv⟩ s
      = Proj2D.step2D pi sqrt ⟨wx2, wy2, m2, r2, 0, 0, dtv⟩ s := by
  simp only [Proj2D.step2D, Proj2D.accel2D_dragFree]

/-- With Cd = 0 and omega = 0 the whole drag-free run is independent of mass
and wind in all recorded columns except VREL: same T, X, Y, VX, VY lists. -/
theorem Proj2D.run2D_dragFree_proj_eq (pi : ℚ) (sqrt : ℚ → ℚ)
    (wx1 wy1 m1 r1 wx2 wy2 m2 r2 dtv : ℚ) :
    ∀ (fuel : ℕ) (s : Proj2D.State2D),
      (Proj2D.run2D pi sqrt ⟨wx1, wy1, m1, r1, 0, 0, dtv⟩ fuel s).T
          = (Proj2D.run2D pi sqrt ⟨wx2, wy2, m2, r2, 0, 0, dtv⟩ fuel s).T ∧
      (Proj2D.run2D pi sqrt ⟨wx1, wy1, m1, r1, 0, 0, dtv⟩ fuel s).X
          = (Proj2D.run2D pi sqrt ⟨wx2, wy2, m2, r2, 0, 0, dtv⟩ fuel s).X ∧
      (Proj2D.run2D pi sqrt ⟨wx1, wy1, m1, r1, 0, 0, dtv⟩ fuel s).Y
          = (Proj2D.run2D pi sqrt ⟨wx2, wy2, m2, r2, 0, 0, dtv⟩ fuel s).Y ∧
      (Proj2D.run2D pi sqrt ⟨wx1, wy1, m1, r1, 0, 0, dtv⟩ fuel s).VX
          = (Proj2D.run2D pi sqrt ⟨wx2, wy2, m2, r2, 0, 0, dtv⟩ fuel s).VX ∧
      (Proj2D.run2D pi sqrt ⟨wx1, wy1, m1, r1, 0, 0, dtv⟩ fuel s).VY
          = (Proj2D.run2D pi sqrt ⟨wx2, wy2, m2, r2, 0, 0, dtv⟩ fuel s).VY := by
  intro fuel
  induction fuel with
  | zero => intro s; exact ⟨rfl, rfl, rfl, rfl, rfl⟩
  | succ n ih =>
    intro s
    by_cases h : 0 ≤ s.y
    · obtain ⟨h1, h2, h3, h4, h5⟩ :=
        ih (Proj2D.step2D pi sqrt ⟨wx2, wy2, m2, r2, 0, 0, dtv⟩ s)
      simp only [Proj2D.run2D, if_pos h,
        Proj2D.step2D_dragFree_eq pi sqrt wx1 wy1 m1 r1 wx2 wy2 m2 r2 dtv s,
        h1, h2, h3, h4, h5]
      exact ⟨trivial, trivial, trivial, trivial, trivial⟩
    · simp only [Proj2D.run2D, if_neg h]
      exact ⟨trivial, trivial, trivial, trivial, trivial⟩

/-- With Cd = 0 and omega = 0 and a fixed wind, the drag-free run is fully
independent of the mass (all recorded columns, VREL included). -/
theorem Proj2D.run2D_mass_eq (pi : ℚ) (sqrt : ℚ → ℚ)
    (wx wy m1 m2 r dtv : ℚ) :
    ∀ (fuel : ℕ) (s : Proj2D.State2D),
      Proj2D.run2D pi sqrt ⟨wx, wy, m1, r, 0, 0, dtv⟩ fuel s
        = Proj2D.run2D pi sqrt ⟨wx, wy, m2, r, 0, 0, dtv⟩ fuel s := by
  intro fuel
  induction fuel with
  | zero => intro s; rfl
  | succ n ih =>
    intro s
    by_cases h : 0 ≤ s.y
    · simp only [Proj2D.run2D, if_pos h,
        Proj2D.step2D_dragFree_eq pi sqrt wx wy m1 r wx wy m2 r dtv s, ih,
        Proj2D.vrel2D]
    · simp only [Proj2D.run2D, if_neg h]

/-- C8: when the relative velocity is exactly zero (velocity equals wind,
so v_rel = sqrt 0 = 0), the drag force and the Magnus force are the exact
zero vectors via the explicit v_rel != 0 branch — in both the 2D and the 3D
force model no division by v_rel is evaluated in that case — and the
acceleration is exactly (0, -g) (resp. (0, 0, -g)). -/
theorem zero_relative_speed_forces :
    (∀ (pi : ℚ) (sqrt : ℚ → ℚ), sqrt 0 = 0 →
      ∀ (p : Proj2D.Params2D) (vx vy : ℚ), vx = p.windx → vy = p.windy →
        Proj2D.drag2D pi sqrt p vx vy = (0, 0) ∧
        Proj2D.magnus2D pi sqrt p vx vy = (0, 0) ∧
        Proj2D.accel2D pi sqrt p vx vy = (0, -Proj2D.g)) ∧
    (∀ (pi : ℚ) (sqrt : ℚ → ℚ), sqrt 0 = 0 →
      ∀ (q : Proj3D.Params3D) (vx vy vz : ℚ),
        vx = q.windx → vy = q.windy → vz = q.windz →
        Proj3D.drag3D pi sqrt q vx vy vz = (0, 0, 0) ∧
        Proj3D.accel3D pi sqrt q vx vy vz = (0, 0, -Proj3D.g)) := by
  constructor
  · intro pi sqrt hs p vx vy hx hy
    subst hx
    subst hy
    refine ⟨?_, ?_, ?_⟩ <;>
      simp [Proj2D.drag2D, Proj2D.magnus2D, Proj2D.accel2D, hs]
  · intro pi sqrt hs q vx vy vz hx hy hz
    subst hx
    subst hy
    subst hz
    refine ⟨?_, ?_⟩ <;>
      simp [Proj3D.drag3D, Proj3D.accel3D, hs]

/-- C8 witness: zero relative speed at concrete inputs — 2D with velocity
(3,4) equal to the wind, 3D with velocity (1,2,3) equal to the wind — where
`csqrt 0 = 0` discharges the square-root hypothesis. -/
theorem zero_relative_speed_forces_witness :
    csqrt 0 = 0 ∧
      Proj2D.drag2D 3 csqrt ⟨3, 4, 2, 1, 1, 5, 1⟩ 3 4 = (0, 0) ∧
      Proj2D.magnus2D 3 csqrt ⟨3, 4, 2, 1, 1, 5, 1⟩ 3 4 = (0, 0) ∧
      Proj2D.accel2D 3 csqrt ⟨3, 4, 2, 1, 1, 5, 1⟩ 3 4 = (0, -Proj2D.g) ∧
      Proj3D.drag3D 3 csqrt ⟨1, 2, 3, 2, 1, 1, 1⟩ 1 2 3 = (0, 0, 0) ∧
      Proj3D.accel3D 3 csqrt ⟨1, 2, 3, 2, 1, 1, 1⟩ 1 2 3 = (0, 0, -Proj3D.g) := by
  have hsq : csqrt 0 = 0 := by norm_num [csqrt]
  have h2 := zero_relative_speed_forces.1 3 csqrt hsq ⟨3, 4, 2, 1, 1, 5, 1⟩ 3 4
    rfl rfl
  have h3 := zero_relative_speed_forces.2 3 csqrt hsq ⟨1, 2, 3, 2, 1, 1, 1⟩ 1 2 3
    rfl rfl rfl
  exact ⟨hsq, h2.1, h2.2.1, h2.2.2, h3.1, h3.2⟩

/-- C9: with zero wind, zero drag coefficient and zero spin, doubling the
mass (m versus 2m, m > 0) leaves the whole recorded 2D trajectory series
unchanged — identical times, positions, velocities (and relative speeds) at
every sample, for every initial velocity, dt, radius and fuel. -/
theorem mass_independence_dragFree :
    ∀ (pi : ℚ) (sqrt : ℚ → ℚ) (vx0 vy0 m r dtv : ℚ) (fuel : ℕ), 0 < m →
      Proj2D.simulate_trajectory pi sqrt vx0 vy0 ⟨0, 0, m, r, 0, 0, dtv⟩ fuel
        = Proj2D.simulate_trajectory pi sqrt vx0 vy0 ⟨0, 0, 2 * m, r, 0, 0, dtv⟩ fuel := by
  intro pi sqrt vx0 vy0 m r dtv fuel hm
  exact Proj2D.run2D_mass_eq pi sqrt 0 0 m (2 * m) r dtv fuel _

/-- C9 witness: the mass-independence equality at pi = 3, sqrt = csqrt,
initial velocity (1,2), m = 1 > 0, r = 0, dt = 1, fuel 3. -/
theorem mass_independence_dragFree_witness :
    (0 : ℚ) < 1 ∧
      Proj2D.simulate_trajectory 3 csqrt 1 2 ⟨0, 0, 1, 0, 0, 0, 1⟩ 3
        = Proj2D.simulate_trajectory 3 csqrt 1 2 ⟨0, 0, 2 * 1, 0, 0, 0, 1⟩ 3 :=
  ⟨by norm_num, mass_independence_dragFree 3 csqrt 1 2 1 0 1 3 (by norm_num)⟩

/-- C10: with Cd = 0 and omega = 0, two 2D runs that differ only in the wind
vector record identical T, X, Y, VX and VY arrays — the wind can only reach
the state evolution through the drag and Magnus terms, which vanish; only the
recorded VREL column may differ. -/
theorem wind_noninterference_dragFree :
    ∀ (pi : ℚ) (sqrt : ℚ → ℚ) (vx0 vy0 wx1 wy1 wx2 wy2 m r dtv : ℚ) (fuel : ℕ),
      (Proj2D.simulate_trajectory pi sqrt vx0 vy0 ⟨wx1, wy1, m, r, 0, 0, dtv⟩ fuel).T
          = (Proj2D.simulate_trajectory pi sqrt vx0 vy0 ⟨wx2, wy2, m, r, 0, 0, dtv⟩ fuel).T ∧
      (Proj2D.simulate_trajectory pi sqrt vx0 vy0 ⟨wx1, wy1, m, r, 0, 0, dtv⟩ fuel).X
          = (Proj2D.simulate_trajectory pi sqrt vx0 vy0 ⟨wx2, wy2, m, r, 0, 0, dtv⟩ fuel).X ∧
      (Proj2D.simulate_trajectory pi sqrt vx0 vy0 ⟨wx1, wy1, m, r, 0, 0, dtv⟩ fuel).Y
          = (Proj2D.simulate_trajectory pi sqrt vx0 vy0 ⟨wx2, wy2, m, r, 0, 0, dtv⟩ fuel).Y ∧
      (Proj2D.simulate_trajectory pi sqrt vx0 vy0 ⟨wx1, wy1, m, r, 0, 0, dtv⟩ fuel).VX
          = (Proj2D.simulate_trajectory pi sqrt vx0 vy0 ⟨wx2, wy2, m, r, 0, 0, dtv⟩ fuel).VX ∧
      (Proj2D.simulate_trajectory pi sqrt vx0 vy0 ⟨wx1, wy1, m, r, 0, 0, dtv⟩ fuel).VY
          = (Proj2D.simulate_trajectory pi sqrt vx0 vy0 ⟨wx2, wy2, m, r, 0, 0, dtv⟩ fuel).VY := by
  intro pi sqrt vx0 vy0 wx1 wy1 wx2 wy2 m r dtv fuel
  exact Proj2D.run2D_dragFree_proj_eq pi sqrt wx1 wy1 m r wx2 wy2 m r dtv fuel _
